import Mathlib

/-!
Shallow embedding of `src/app.py` (faculty-dashboard Flask app).

The app keeps a faculty table (rows: Sr.No, Name of Faculty,
Google Scholar Profile URL, Citations, h-index, i10-index) in an Excel
file, and exposes routes that fetch Google Scholar metrics through
SerpAPI and merge them into the table.

Modelling conventions:
* a table cell is a plain value (`Int` / `String`); the metric cells are
  `Option Int` since freshly added rows hold `None`;
* the external SerpAPI call is a parameter `api : Nat -> PyResult Response`
  giving, for each attempt index, either a parsed JSON response or a raised
  exception (`PyResult.exn`), mirroring `search.get_dict()`;
* Python dict `.get` with a default is an `Option` field plus `getD`;
  Python's truthiness-based `or` on metric values is `pyOrOpt`
  (`None` and `0` are falsy);
* file persistence is a `Files` record (primary = data/faculty_data.xlsx,
  snapshot = data/faculty_data_updated.xlsx) and `save_faculty_df`'s
  outcome is a `SaveOutcome` parameter: the call can succeed, raise
  `PermissionError` (the only exception the routes catch), or raise any
  other exception.
-/

namespace FacultyDashboard

/-- Result of running a Python computation: a value, or a raised exception
(subclass of `Exception`) carrying a message. -/
inductive PyResult (α : Type) : Type
  | ok (val : α)
  | exn (msg : String)
deriving DecidableEq

/-- One metric dict inside `cited_by.table`, e.g.
`citations: (all: 120, since_2020: 80)`; absent keys are `none`. -/
structure Metric where
  all : Option Int
  since_2020 : Option Int
  since_2019 : Option Int
deriving DecidableEq

/-- One entry of `cited_by.table`; the code reads key "citations" in entry 0,
"h_index" in entry 1, "i10_index" in entry 2, each defaulting to an empty
dict when absent. -/
structure MetricGroup where
  citations : Option Metric
  h_index : Option Metric
  i10_index : Option Metric
deriving DecidableEq

/-- The parts of the SerpAPI JSON that `fetch_scholar_data` reads:
`author.name` (absent key modelled as `none`, the code defaults it to
"Unknown") and `cited_by.table` (a missing `cited_by` or `table` key both
yield the empty list, so they are collapsed into one list field). -/
structure Response where
  authorName : Option String
  table : List MetricGroup
deriving DecidableEq

/-- The dict `fetch_scholar_data` returns on success:
Name / Citations / H-index / i10-index. -/
structure Record where
  name : String
  citations : Int
  hIndex : Int
  i10Index : Int
deriving DecidableEq

/-- Python `a or b` for optional ints: `None` and `0` are falsy, so the
right operand is taken when the left is absent or zero. -/
def pyOrOpt (a b : Option Int) : Option Int :=
  match a with
  | none => b
  | some n => if n = 0 then b else some n

/-- The empty dict `{}` used as default for a missing metric key. -/
def emptyMetric : Metric := ⟨none, none, none⟩

/-- `d.get("all") or d.get("since_2020") or d.get("since_2019") or 0`
applied to `group.get(key, {}) or {}`. -/
def metricValue (m : Option Metric) : Int :=
  match pyOrOpt (m.getD emptyMetric).all
      (pyOrOpt (m.getD emptyMetric).since_2020 (m.getD emptyMetric).since_2019) with
  | none => 0
  | some v => v

/-- Lines 76-138 of app.py minus the retry logic: extract the
name and the three metrics from one response. -/
def parseResponse (resp : Response) : Record :=
  ⟨resp.authorName.getD "Unknown",
   (match resp.table.get? 0 with | none => 0 | some g => metricValue g.citations),
   (match resp.table.get? 1 with | none => 0 | some g => metricValue g.h_index),
   (match resp.table.get? 2 with | none => 0 | some g => metricValue g.i10_index)⟩

/-- `name == "Unknown" and citations_all == 0 and h_index_all == 0`:
the "everything looks empty, retry" test (line 118). -/
def isEmptyRecord (r : Record) : Bool :=
  r.name == "Unknown" && r.citations == 0 && r.hIndex == 0

/-- Does the pattern occur at the head of the character list? -/
def leadsWith : List Char → List Char → Bool
  | [], _ => true
  | _ :: _, [] => false
  | p :: ps, c :: cs => p == c && leadsWith ps cs

/-- Does the pattern occur anywhere in the character list? -/
def hasSubList (pat : List Char) : List Char → Bool
  | [] => leadsWith pat []
  | c :: cs => leadsWith pat (c :: cs) || hasSubList pat cs

/-- Python `pat in s` for strings. -/
def strHasSub (s pat : String) : Bool := hasSubList pat.data s.data

/-- Python `s.startswith(pat)`. -/
def strLeads (s pat : String) : Bool := leadsWith pat.data s.data

/-- Python `s.lower()`. -/
def strLower (s : String) : String := String.mk (s.data.map Char.toLower)

/-- Drop leading whitespace from a character list. -/
def dropSpaces : List Char → List Char
  | [] => []
  | c :: cs => if c.isWhitespace then dropSpaces cs else c :: cs

/-- Python `s.strip()`: whitespace removed from both ends. -/
def strStrip (s : String) : String :=
  String.mk (dropSpaces (dropSpaces s.data.reverse).reverse)

/-- `"user=" in profile_url` (line 57). -/
def hasUserParam (url : String) : Bool := strHasSub url "user="

/-- The `for attempt in range(retries)` loop (lines 71-143): each iteration
calls the API inside its own try/except; a raised exception or an
empty-looking record leads to the next iteration (after a sleep); a
non-empty record is returned; falling off the loop yields `none`
(line 145). The loop body itself raises nothing, hence the `PyResult`
carries no `exn` outcome here beyond what the recursion produces. -/
def loopE (api : Nat → PyResult Response) : Nat → Nat → PyResult (Option Record)
  | _, 0 => PyResult.ok none
  | attempt, fuel + 1 =>
    match api attempt with
    | PyResult.exn _ => loopE api (attempt + 1) fuel
    | PyResult.ok resp =>
      if isEmptyRecord (parseResponse resp) then loopE api (attempt + 1) fuel
      else PyResult.ok (some (parseResponse resp))

/-- `fetch_scholar_data` with its exception behaviour explicit: the outer
try/except (lines 56, 147-149) turns any escaped exception into `None`;
the URL-marker check short-circuits to `None`; otherwise the retry loop
runs with `retries = 2`. -/
def fetchE (url : String) (api : Nat → PyResult Response) : PyResult (Option Record) :=
  match (if hasUserParam url then loopE api 0 2 else PyResult.ok none) with
  | PyResult.ok v => PyResult.ok v
  | PyResult.exn _ => PyResult.ok none

/-- `fetch_scholar_data(profile_url)`: the value the caller sees. -/
def fetch_scholar_data (url : String) (api : Nat → PyResult Response) : Option Record :=
  match fetchE url api with
  | PyResult.ok v => v
  | PyResult.exn _ => none

/-- Number of API calls (`GoogleSearch(params)` / `get_dict`) the retry
loop issues, by attempt index and remaining fuel. -/
def loopCalls (api : Nat → PyResult Response) : Nat → Nat → Nat
  | _, 0 => 0
  | attempt, fuel + 1 =>
    match api attempt with
    | PyResult.exn _ => 1 + loopCalls api (attempt + 1) fuel
    | PyResult.ok resp =>
      if isEmptyRecord (parseResponse resp) then 1 + loopCalls api (attempt + 1) fuel
      else 1

/-- Number of API calls one `fetch_scholar_data(url)` run issues. -/
def fetchCalls (url : String) (api : Nat → PyResult Response) : Nat :=
  if hasUserParam url then loopCalls api 0 2 else 0

/-- Attempt `i` yields no usable data: the call raises, or the parsed
record looks empty (the two cases that make the loop move on). -/
def attemptEmptyB (api : Nat → PyResult Response) (i : Nat) : Bool :=
  match api i with
  | PyResult.exn _ => true
  | PyResult.ok resp => isEmptyRecord (parseResponse resp)

/-- One row of the faculty table. Columns: Sr.No, Name of Faculty,
Google Scholar Profile URL, Citations, h-index, i10-index (the metric
cells are empty, `None`, on a freshly added row). -/
structure Row where
  srNo : Int
  name : String
  url : String
  citations : Option Int
  hIndex : Option Int
  i10Index : Option Int
deriving DecidableEq

/-- `ADMIN_PASSWORD` (line 20). -/
def ADMIN_PASSWORD : String := "pratik123"

/-- `str(row["Name of Faculty"]).lower() == faculty_name.lower()`:
the case-insensitive row predicate used by `fetch_one` (line 189) and,
negated, by `delete_faculty` (line 276). `fn` is already stripped. -/
def rowMatches (fn : String) (r : Row) : Bool :=
  strLower r.name == strLower fn

/-- Write the fetched metrics into a row:
`df.loc[.., "Citations"/"h-index"/"i10-index"] = data[..]`. -/
def applyRecord (d : Record) (r : Row) : Row :=
  { r with citations := some d.citations, hIndex := some d.hIndex,
           i10Index := some d.i10Index }

/-- `fetch_one` (lines 176-214), persistence aside: strip the posted name;
empty name, no case-insensitive match, or a failed fetch yield an error
page and leave the table alone; otherwise the metrics fetched for the
FIRST matching row's URL are assigned through the boolean mask, i.e. into
EVERY matching row. Returns the fetched record (if any) and the table
that the route then tries to save.

The tail of the route after the fetch came back is split into
`fetch_one_merge`: a failed fetch (`if not data`) leaves the table alone;
a record is assigned through the mask into every matching row. -/
def fetch_one_merge (facultyName : String) (df : List Row)
    (fetched : Option Record) : Option Record × List Row :=
  match fetched with
  | none => (none, df)
  | some d =>
    (some d,
     df.map (fun r => if rowMatches (strStrip facultyName) r then applyRecord d r else r))

def fetch_one (facultyName : String) (df : List Row)
    (api : Nat → PyResult Response) : Option Record × List Row :=
  if strStrip facultyName = "" then (none, df)
  else
    match df.find? (rowMatches (strStrip facultyName)) with
    | none => (none, df)
    | some row =>
      fetch_one_merge facultyName df (fetch_scholar_data (strStrip row.url) api)

/-- `new_df["Sr.No"] = range(1, len(new_df) + 1)` (line 284), positional:
the k-th remaining row gets serial `n + k`. -/
def renumber : List Row → Nat → List Row
  | [], _ => []
  | r :: rest, n => { r with srNo := (n : Int) } :: renumber rest (n + 1)

/-- `delete_faculty` (lines 259-292), password check and persistence aside:
strip the posted name; an empty name or a name matching no row yields an
error page (`none`); otherwise every case-insensitive match is dropped and
Sr.No is re-sequenced from 1. -/
def delete_faculty (facultyName : String) (df : List Row) : Option (List Row) :=
  if strStrip facultyName = "" then none
  else
    if (df.filter (fun r => !rowMatches (strStrip facultyName) r)).length = df.length then none
    else some (renumber (df.filter (fun r => !rowMatches (strStrip facultyName) r)) 1)

/-- Outcome tallies `update_excel` renders: updated count, failed names in
table order, total row count. -/
structure UpdateResult where
  updated : Nat
  failed_list : List String
  total : Nat
deriving DecidableEq

/-- The `for idx, row in df.iterrows()` loop of `update_excel`
(lines 307-325): a row whose stripped URL is empty or does not start with
"http" is recorded as failed without any fetch; otherwise the row is
fetched (each row with its own API behaviour `apis idx`) and either
updated in place or recorded as failed. Returns the final table, the
updated count and the failed-name list. -/
def updateLoop (apis : Nat → Nat → PyResult Response) :
    Nat → List Row → List Row × Nat × List String
  | _, [] => ([], 0, [])
  | idx, r :: rest =>
    let step := updateLoop apis (idx + 1) rest
    if strStrip r.url = "" || !strLeads (strStrip r.url) "http" then
      (r :: step.1, step.2.1, r.name :: step.2.2)
    else
      match fetch_scholar_data (strStrip r.url) (apis idx) with
      | some d => (applyRecord d r :: step.1, step.2.1 + 1, step.2.2)
      | none => (r :: step.1, step.2.1, r.name :: step.2.2)

/-- The two Excel destinations: `DATA_PATH` (primary table) and
`UPDATED_PATH` (bulk-sync snapshot, absent until first written). -/
structure Files where
  primary : List Row
  snapshot : Option (List Row)
deriving DecidableEq

/-- How a `save_faculty_df` call (`df.to_excel`) ends: success, a raised
`PermissionError` (file locked, e.g. open in Excel), or any other raised
exception (disk full, engine error, ...). -/
inductive SaveOutcome : Type
  | ok
  | permissionError
  | otherError
deriving DecidableEq

/-- The `fetch_one` route with persistence: on success the table is saved
to the PRIMARY path inside `try/except PermissionError` (lines 209-212),
so a `PermissionError` skips the save and any other exception propagates
out of the route. -/
def fetch_one_route (facultyName : String) (files : Files)
    (api : Nat → PyResult Response) (saveOut : SaveOutcome) :
    PyResult (Option Record × Files) :=
  match fetch_one facultyName files.primary api with
  | (none, _) => PyResult.ok (none, files)
  | (some d, df) =>
    match saveOut with
    | SaveOutcome.ok => PyResult.ok (some d, ⟨df, files.snapshot⟩)
    | SaveOutcome.permissionError => PyResult.ok (some d, files)
    | SaveOutcome.otherError => PyResult.exn "save failed"

/-- `add_faculty` (lines 218-255): password gate, non-empty stripped name
and URL, URL must contain "scholar.google" and "user="; the new row gets
serial `len(df) + 1` and empty metric cells, is appended, and the table is
saved to the primary path under `except PermissionError`. Returns whether
a row was added. -/
def add_faculty_route (password newName newUrl : String) (files : Files)
    (saveOut : SaveOutcome) : PyResult (Bool × Files) :=
  if password ≠ ADMIN_PASSWORD then PyResult.ok (false, files)
  else if strStrip newName = "" ∨ strStrip newUrl = "" then PyResult.ok (false, files)
  else if !strHasSub (strStrip newUrl) "scholar.google"
      ∨ !strHasSub (strStrip newUrl) "user=" then PyResult.ok (false, files)
  else
    match saveOut with
    | SaveOutcome.ok =>
      PyResult.ok (true,
        ⟨files.primary ++
          [⟨(files.primary.length : Int) + 1, strStrip newName, strStrip newUrl,
            none, none, none⟩],
         files.snapshot⟩)
    | SaveOutcome.permissionError => PyResult.ok (true, files)
    | SaveOutcome.otherError => PyResult.exn "save failed"

/-- The `delete_faculty` route with the password gate and persistence:
the re-sequenced table is saved to the primary path under
`except PermissionError` (lines 286-289); the route reports success even
when the save was skipped. -/
def delete_faculty_route (password facultyName : String) (files : Files)
    (saveOut : SaveOutcome) : PyResult (Bool × Files) :=
  if password ≠ ADMIN_PASSWORD then PyResult.ok (false, files)
  else
    match delete_faculty facultyName files.primary with
    | none => PyResult.ok (false, files)
    | some newDf =>
      match saveOut with
      | SaveOutcome.ok => PyResult.ok (true, ⟨newDf, files.snapshot⟩)
      | SaveOutcome.permissionError => PyResult.ok (true, files)
      | SaveOutcome.otherError => PyResult.exn "save failed"

/-- `update_excel` (lines 296-339): run the bulk loop over the primary
table, then save the resulting table to the SNAPSHOT path (`UPDATED_PATH`)
under `except PermissionError` — the primary file is never written. -/
def update_excel_route (files : Files) (apis : Nat → Nat → PyResult Response)
    (saveOut : SaveOutcome) : PyResult (UpdateResult × Files) :=
  match saveOut with
  | SaveOutcome.ok =>
    PyResult.ok
      (⟨(updateLoop apis 0 files.primary).2.1,
        (updateLoop apis 0 files.primary).2.2,
        files.primary.length⟩,
       ⟨files.primary, some (updateLoop apis 0 files.primary).1⟩)
  | SaveOutcome.permissionError =>
    PyResult.ok
      (⟨(updateLoop apis 0 files.primary).2.1,
        (updateLoop apis 0 files.primary).2.2,
        files.primary.length⟩,
       files)
  | SaveOutcome.otherError => PyResult.exn "save failed"

/-- The spec's selection rule, read literally (for comparison with
`metricValue`): per group take the all-time value whenever the key is
present; fall back to since_2020 then since_2019 only when the preceding
keys are absent; 0 when none of the three is present or the group is
missing. -/
def metricValueSpec : Option Metric → Int
  | none => 0
  | some d =>
    match d.all with
    | some v => v
    | none =>
      match d.since_2020 with
      | some v => v
      | none =>
        match d.since_2019 with
        | some v => v
        | none => 0

/-- The selection rule the code actually implements, stated independently
of the `or`-chain: the first present AND non-zero value among all-time,
since_2020, since_2019, and 0 when there is none (Python `or` treats a
stored 0 like an absent key). -/
def metricValueAmended (m : Option Metric) : Int :=
  match m with
  | none => 0
  | some d =>
    ((([d.all, d.since_2020, d.since_2019].filterMap id).filter
        (fun v => v != 0)).headD 0)

/-!  Helper lemmas  -/

theorem loopCalls_le (api : Nat → PyResult Response) :
    ∀ a f, loopCalls api a f ≤ f := by
  intro a f
  induction f generalizing a with
  | zero => simp [loopCalls]
  | succ f ih =>
    show loopCalls api a (f + 1) ≤ f + 1
    rcases hx : api a with resp | e
    · by_cases h : isEmptyRecord (parseResponse resp)
      · have := ih (a + 1)
        simp [loopCalls, hx, h]
        omega
      · simp [loopCalls, hx, h]
    · have := ih (a + 1)
      simp [loopCalls, hx]
      omega

theorem loopCalls_fuel_one (api : Nat → PyResult Response) (a : Nat) :
    loopCalls api a 1 = 1 := by
  show loopCalls api a (0 + 1) = 1
  rcases hx : api a with resp | e
  · by_cases h : isEmptyRecord (parseResponse resp) <;> simp [loopCalls, hx, h]
  · simp [loopCalls, hx]

theorem loopCalls_step_empty (api : Nat → PyResult Response) (a f : Nat)
    (h : attemptEmptyB api a = true) :
    loopCalls api a (f + 1) = 1 + loopCalls api (a + 1) f := by
  unfold attemptEmptyB at h
  rcases hx : api a with resp | e
  · rw [hx] at h
    simp only at h
    simp [loopCalls, hx, h]
  · simp [loopCalls, hx]

theorem loopE_skip (api : Nat → PyResult Response) (a f : Nat)
    (h : attemptEmptyB api a = true) :
    loopE api a (f + 1) = loopE api (a + 1) f := by
  unfold attemptEmptyB at h
  rcases hx : api a with resp | e
  · rw [hx] at h
    simp only at h
    simp [loopE, hx, h]
  · simp [loopE, hx]

theorem renumber_length (rows : List Row) : ∀ n, (renumber rows n).length = rows.length := by
  induction rows with
  | nil => intro n; rfl
  | cons r rest ih => intro n; simp [renumber, ih (n + 1)]

theorem renumber_srNo (rows : List Row) :
    ∀ n, (renumber rows n).map Row.srNo =
      (List.range rows.length).map (fun i => ((n + i : Nat) : Int)) := by
  induction rows with
  | nil => intro n; rfl
  | cons r rest ih =>
    intro n
    show (n : Int) :: (renumber rest (n + 1)).map Row.srNo =
      (List.range (rest.length + 1)).map (fun i => ((n + i : Nat) : Int))
    rw [ih (n + 1), List.range_succ_eq_map, List.map_cons, List.map_map]
    refine List.cons_eq_cons.mpr ⟨by norm_num, ?_⟩
    refine List.map_congr_left ?_
    intro i _
    show ((n + 1 + i : Nat) : Int) = ((n + (i + 1) : Nat) : Int)
    congr 1
    omega

theorem renumber_map_name (rows : List Row) :
    ∀ n, (renumber rows n).map Row.name = rows.map Row.name := by
  induction rows with
  | nil => intro n; rfl
  | cons r rest ih => intro n; simp [renumber, ih (n + 1)]

theorem fetch_one_spec (facultyName : String) (df : List Row)
    (api : Nat → PyResult Response) :
    fetch_one facultyName df api = (none, df)
    ∨ ∃ row d, df.find? (rowMatches (strStrip facultyName)) = some row
        ∧ fetch_scholar_data (strStrip row.url) api = some d
        ∧ fetch_one facultyName df api =
            (some d, df.map (fun r =>
              if rowMatches (strStrip facultyName) r then applyRecord d r else r)) := by
  by_cases h1 : strStrip facultyName = ""
  · left
    unfold fetch_one
    rw [if_pos h1]
  · rcases hf : df.find? (rowMatches (strStrip facultyName)) with _ | row
    · left
      unfold fetch_one
      rw [if_neg h1, hf]
    · rcases hd : fetch_scholar_data (strStrip row.url) api with _ | d2
      · have key : fetch_one facultyName df api =
            fetch_one_merge facultyName df (fetch_scholar_data (strStrip row.url) api) := by
          unfold fetch_one
          rw [if_neg h1, hf]
        left
        rw [key, hd]
        rfl
      · have key : fetch_one facultyName df api =
            fetch_one_merge facultyName df (fetch_scholar_data (strStrip row.url) api) := by
          unfold fetch_one
          rw [if_neg h1, hf]
        right
        refine ⟨row, d2, ?_, hd, ?_⟩
        · rfl
        · rw [key, hd]
          rfl

/-!  Claim theorems  -/

/-- C3: `fetch_scholar_data` makes at most 2 attempts; an attempt whose
parsed record has name "Unknown" and citations = h-index = 0 is treated as
empty and retried, so such a first-attempt response (in particular one
with `author.name` absent and both values 0) causes a second API call; and
when every attempt is empty or raises, the function returns `None`. -/
theorem c3_retry_policy :
    (∀ url api, fetchCalls url api ≤ 2)
    ∧ (∀ url api resp, hasUserParam url = true → api 0 = PyResult.ok resp →
        isEmptyRecord (parseResponse resp) = true → fetchCalls url api = 2)
    ∧ (∀ url api, attemptEmptyB api 0 = true → attemptEmptyB api 1 = true →
        fetch_scholar_data url api = none) := by
  refine ⟨?_, ?_, ?_⟩
  · intro url api
    unfold fetchCalls
    by_cases h : hasUserParam url = true
    · simp only [h, if_true]
      exact loopCalls_le api 0 2
    · simp [h]
  · intro url api resp hu hapi hempty
    have h0 : attemptEmptyB api 0 = true := by
      unfold attemptEmptyB
      rw [hapi]
      exact hempty
    have e1 : loopCalls api 0 2 = 1 + loopCalls api 1 1 :=
      loopCalls_step_empty api 0 1 h0
    unfold fetchCalls
    rw [hu]
    simp only [if_true]
    rw [e1, loopCalls_fuel_one]
  · intro url api h0 h1
    unfold fetch_scholar_data fetchE
    by_cases hu : hasUserParam url = true
    · have e : loopE api 0 2 = PyResult.ok none :=
        calc loopE api 0 2 = loopE api 1 1 := loopE_skip api 0 1 h0
        _ = loopE api 2 0 := loopE_skip api 1 0 h1
        _ = PyResult.ok none := rfl
      simp [hu, e]
    · simp [hu]

/-- C3 witness: the empty-looking first response (no `author.name`, empty
table, hence citations = h-index = 0) makes the fetch issue exactly two
API calls. -/
theorem c3_witness :
    fetchCalls "https://scholar.google.com/citations?user=x"
      (fun _ => PyResult.ok ⟨none, []⟩) = 2 :=
  c3_retry_policy.2.1 "https://scholar.google.com/citations?user=x"
    (fun _ => PyResult.ok ⟨none, []⟩) ⟨none, []⟩ (by decide) rfl (by decide)

/-- C4: on a response whose `cited_by.table` holds the three groups
(citations all 120, h_index all 9, i10_index all 4) and whose author name
is "J. Doe", the fetch returns Name "J. Doe", Citations 120, HIndex 9,
I10Index 4. -/
theorem c4_fetch_three_groups :
    fetch_scholar_data "https://scholar.google.com/citations?user=abc&hl=en"
      (fun _ => PyResult.ok
        ⟨some "J. Doe",
         [⟨some ⟨some 120, none, none⟩, none, none⟩,
          ⟨none, some ⟨some 9, none, none⟩, none⟩,
          ⟨none, none, some ⟨some 4, none, none⟩⟩]⟩) =
      some ⟨"J. Doe", 120, 9, 4⟩ := by decide

/-- C5 counterexample: a citations group that stores the all-time value 0
alongside since_2020 = 5. The spec's rule (take the all-time value
whenever present) yields 0, but the code's `or`-chain treats the stored 0
as falsy and yields 5. -/
theorem c5_counterexample :
    metricValue (some ⟨some 0, some 5, none⟩) = 5
    ∧ metricValueSpec (some ⟨some 0, some 5, none⟩) = 0
    ∧ metricValue (some ⟨some 0, some 5, none⟩) ≠
        metricValueSpec (some ⟨some 0, some 5, none⟩) := by decide

/-- C5 amended: per metric group the code selects the first PRESENT AND
NON-ZERO value among all-time, since_2020, since_2019 (a stored 0 is
treated like an absent key, Python `or` falsiness); it yields 0 when all
three are absent or zero, and 0 when the group is missing. -/
theorem c5_amended_first_truthy :
    ∀ m, metricValue m = metricValueAmended m := by
  intro m
  rcases m with _ | ⟨a, b, c⟩
  · rfl
  · rcases a with _ | va <;> rcases b with _ | vb <;> rcases c with _ | vc <;>
      simp [metricValue, metricValueAmended, pyOrOpt, emptyMetric] <;>
      split_ifs <;> simp_all <;> (try split_ifs <;> simp_all)

/-- C6: a profile reference without the "user=" marker makes
`fetch_scholar_data` return `None` with zero API calls (no retry, no
external request). -/
theorem c6_no_marker_no_call (url : String) (api : Nat → PyResult Response)
    (h : hasUserParam url = false) :
    fetch_scholar_data url api = none ∧ fetchCalls url api = 0 := by
  constructor
  · unfold fetch_scholar_data fetchE
    simp [h]
  · unfold fetchCalls
    simp [h]

/-- C6 witness: a Scholar-looking URL whose query string lacks "user=". -/
theorem c6_witness :
    fetch_scholar_data "https://scholar.google.com/citations?uzer=x"
      (fun _ => PyResult.ok ⟨some "X", []⟩) = none
    ∧ fetchCalls "https://scholar.google.com/citations?uzer=x"
      (fun _ => PyResult.ok ⟨some "X", []⟩) = 0 :=
  c6_no_marker_no_call "https://scholar.google.com/citations?uzer=x"
    (fun _ => PyResult.ok ⟨some "X", []⟩) (by decide)

/-- C9: `fetch_scholar_data` never lets an exception escape: whatever the
URL and however the API behaves on each attempt (raising included), the
run ends in `PyResult.ok` and the caller sees the contained
`Option Record`. -/
theorem c9_fetch_never_raises (url : String) (api : Nat → PyResult Response) :
    ∃ v, fetchE url api = PyResult.ok v ∧ fetch_scholar_data url api = v := by
  unfold fetch_scholar_data fetchE
  rcases hx : (if hasUserParam url = true then loopE api 0 2 else PyResult.ok none)
    with v | e
  · exact ⟨v, rfl, rfl⟩
  · exact ⟨none, rfl, rfl⟩

/-- C7: whenever `delete_faculty` removes at least one row (i.e. succeeds
and returns a table), the Sr.No column of the result is exactly the dense
sequence 1..N, N the number of remaining rows. -/
theorem c7_delete_renumbers (name : String) (df res : List Row)
    (h : delete_faculty name df = some res) :
    res.map Row.srNo = (List.range res.length).map (fun i => ((i + 1 : Nat) : Int)) := by
  unfold delete_faculty at h
  by_cases h1 : strStrip name = ""
  · rw [if_pos h1] at h
    simp at h
  · rw [if_neg h1] at h
    by_cases h2 :
        (df.filter (fun r => !rowMatches (strStrip name) r)).length = df.length
    · rw [if_pos h2] at h
      simp at h
    · rw [if_neg h2] at h
      have hres : res = renumber (df.filter (fun r => !rowMatches (strStrip name) r)) 1 :=
        (Option.some.inj h).symm
      subst hres
      rw [renumber_length, renumber_srNo]
      refine List.map_congr_left ?_
      intro i _
      show ((1 + i : Nat) : Int) = ((i + 1 : Nat) : Int)
      congr 1
      omega

/-- C7 witness: deleting "bob" from a four-row table removes the two
case-variant matches and renumbers the survivors 1, 2. -/
theorem c7_witness :
    ([⟨1, "Ann", "u", none, none, none⟩, ⟨2, "Cy", "x", none, none, none⟩] :
        List Row).map Row.srNo =
      (List.range ([⟨1, "Ann", "u", none, none, none⟩,
        ⟨2, "Cy", "x", none, none, none⟩] : List Row).length).map
        (fun i => ((i + 1 : Nat) : Int)) :=
  c7_delete_renumbers "bob"
    [⟨1, "Ann", "u", none, none, none⟩, ⟨2, "BOB", "v", none, none, none⟩,
     ⟨3, "bob", "w", none, none, none⟩, ⟨4, "Cy", "x", none, none, none⟩]
    [⟨1, "Ann", "u", none, none, none⟩, ⟨2, "Cy", "x", none, none, none⟩]
    (by decide)

/-- C10: a successful `delete_faculty` removes EVERY row matching the
name case-insensitively — no surviving row matches, and the surviving
names are exactly those of the non-matching rows, in order. -/
theorem c10_delete_removes_every_match (name : String) (df res : List Row)
    (h : delete_faculty name df = some res) :
    (∀ r ∈ res, rowMatches (strStrip name) r = false)
    ∧ res.map Row.name =
        (df.filter (fun r => !rowMatches (strStrip name) r)).map Row.name := by
  unfold delete_faculty at h
  by_cases h1 : strStrip name = ""
  · rw [if_pos h1] at h
    simp at h
  · rw [if_neg h1] at h
    by_cases h2 :
        (df.filter (fun r => !rowMatches (strStrip name) r)).length = df.length
    · rw [if_pos h2] at h
      simp at h
    · rw [if_neg h2] at h
      have hres : res = renumber (df.filter (fun r => !rowMatches (strStrip name) r)) 1 :=
        (Option.some.inj h).symm
      subst hres
      refine ⟨?_, renumber_map_name _ 1⟩
      intro r hr
      have hname := List.mem_map_of_mem Row.name hr
      rw [renumber_map_name] at hname
      obtain ⟨r0, hr0, he⟩ := List.mem_map.mp hname
      have hkeep : rowMatches (strStrip name) r0 = false := by
        simpa using List.of_mem_filter hr0
      unfold rowMatches at hkeep ⊢
      rw [he] at hkeep
      exact hkeep

/-- C10 witness: both "BOB" and "bob" are gone after one deletion. -/
theorem c10_witness :
    (∀ r ∈ ([⟨1, "Ann", "u", none, none, none⟩,
        ⟨2, "Cy", "x", none, none, none⟩] : List Row),
      rowMatches (strStrip "bob") r = false)
    ∧ ([⟨1, "Ann", "u", none, none, none⟩, ⟨2, "Cy", "x", none, none, none⟩] :
        List Row).map Row.name =
      (([⟨1, "Ann", "u", none, none, none⟩, ⟨2, "BOB", "v", none, none, none⟩,
         ⟨3, "bob", "w", none, none, none⟩, ⟨4, "Cy", "x", none, none, none⟩] :
          List Row).filter
        (fun r => !rowMatches (strStrip "bob") r)).map Row.name :=
  c10_delete_removes_every_match "bob"
    [⟨1, "Ann", "u", none, none, none⟩, ⟨2, "BOB", "v", none, none, none⟩,
     ⟨3, "bob", "w", none, none, none⟩, ⟨4, "Cy", "x", none, none, none⟩]
    [⟨1, "Ann", "u", none, none, none⟩, ⟨2, "Cy", "x", none, none, none⟩]
    (by decide)

/-- C1 counterexample: with two case-variant matches ("Alice", "ALICE"),
single-record sync changes the SECOND matching row too — its metric cells
do not keep their old values, contradicting the claim that only the first
matching row is merged into. -/
theorem c1_counterexample :
    rowMatches (strStrip "alice")
      ⟨1, "Alice", "https://scholar.google.com/citations?user=aaa",
        some 1, some 1, some 1⟩ = true
    ∧ rowMatches (strStrip "alice")
      ⟨2, "ALICE", "https://scholar.google.com/citations?user=bbb",
        some 7, some 7, some 7⟩ = true
    ∧ (fetch_one "alice"
        [⟨1, "Alice", "https://scholar.google.com/citations?user=aaa",
           some 1, some 1, some 1⟩,
         ⟨2, "ALICE", "https://scholar.google.com/citations?user=bbb",
           some 7, some 7, some 7⟩]
        (fun _ => PyResult.ok
          ⟨some "X", [⟨some ⟨some 120, none, none⟩, none, none⟩]⟩)).2.get? 1
      ≠ some ⟨2, "ALICE", "https://scholar.google.com/citations?user=bbb",
          some 7, some 7, some 7⟩ := by decide

/-- C1 amended: when single-record sync succeeds, the metrics fetched for
the first matching row's URL are merged into EVERY row matching the name
case-insensitively; non-matching rows are left unchanged. -/
theorem c1_amended_updates_every_match (facultyName : String) (df : List Row)
    (api : Nat → PyResult Response) (d : Record)
    (h : (fetch_one facultyName df api).1 = some d) :
    (fetch_one facultyName df api).2 =
      df.map (fun r =>
        if rowMatches (strStrip facultyName) r then applyRecord d r else r) := by
  rcases fetch_one_spec facultyName df api with heq | ⟨row, d2, hf, hd, heq⟩
  · rw [heq] at h
    exact Option.noConfusion h
  · rw [heq] at h
    have hd2 : d2 = d := Option.some.inj h
    subst hd2
    rw [heq]

/-- C1 witness: the amended statement applied to the two-variant table. -/
theorem c1_witness :
    (fetch_one "alice"
      [⟨1, "Alice", "https://scholar.google.com/citations?user=aaa",
         some 1, some 1, some 1⟩,
       ⟨2, "ALICE", "https://scholar.google.com/citations?user=bbb",
         some 7, some 7, some 7⟩]
      (fun _ => PyResult.ok
        ⟨some "X", [⟨some ⟨some 120, none, none⟩, none, none⟩]⟩)).2 =
    ([⟨1, "Alice", "https://scholar.google.com/citations?user=aaa",
        some 1, some 1, some 1⟩,
      ⟨2, "ALICE", "https://scholar.google.com/citations?user=bbb",
        some 7, some 7, some 7⟩] : List Row).map (fun r =>
        if rowMatches (strStrip "alice") r then applyRecord ⟨"X", 120, 0, 0⟩ r
        else r) :=
  c1_amended_updates_every_match "alice"
    [⟨1, "Alice", "https://scholar.google.com/citations?user=aaa",
       some 1, some 1, some 1⟩,
     ⟨2, "ALICE", "https://scholar.google.com/citations?user=bbb",
       some 7, some 7, some 7⟩]
    (fun _ => PyResult.ok
      ⟨some "X", [⟨some ⟨some 120, none, none⟩, none, none⟩]⟩)
    ⟨"X", 120, 0, 0⟩ (by decide)

/-- C2: on the table [A (valid URL, fetch succeeds), B (empty URL),
C (valid URL, fetch raises on both attempts)], bulk sync reports
updated = 1, failed_list = ["B", "C"], total = 3, writes the merged table
to the snapshot destination only, and leaves the primary table as it
was. -/
theorem c2_bulk_sync_snapshot_only :
    update_excel_route
      ⟨[⟨1, "A", "https://scholar.google.com/citations?user=aaa",
          some 1, some 2, some 3⟩,
        ⟨2, "B", "", some 4, some 5, some 6⟩,
        ⟨3, "C", "https://scholar.google.com/citations?user=ccc",
          some 7, some 8, some 9⟩], none⟩
      (fun i => if i = 0 then
          (fun _ => PyResult.ok
            ⟨some "A. Prof",
             [⟨some ⟨some 120, none, none⟩, none, none⟩,
              ⟨none, some ⟨some 9, none, none⟩, none⟩,
              ⟨none, none, some ⟨some 4, none, none⟩⟩]⟩)
        else (fun _ => PyResult.exn "timeout"))
      SaveOutcome.ok =
    PyResult.ok (⟨1, ["B", "C"], 3⟩,
      ⟨[⟨1, "A", "https://scholar.google.com/citations?user=aaa",
          some 1, some 2, some 3⟩,
        ⟨2, "B", "", some 4, some 5, some 6⟩,
        ⟨3, "C", "https://scholar.google.com/citations?user=ccc",
          some 7, some 8, some 9⟩],
       some [⟨1, "A", "https://scholar.google.com/citations?user=aaa",
          some 120, some 9, some 4⟩,
        ⟨2, "B", "", some 4, some 5, some 6⟩,
        ⟨3, "C", "https://scholar.google.com/citations?user=ccc",
          some 7, some 8, some 9⟩]⟩) := by decide

/-- C8 counterexample: a save failure other than `PermissionError`
(e.g. disk full) IS raised to the caller — here a successful deletion
whose save raises a non-permission exception makes the route itself
raise instead of returning its normal result. -/
theorem c8_counterexample :
    delete_faculty_route "pratik123" "ann"
      ⟨[⟨1, "Ann", "u", none, none, none⟩], none⟩ SaveOutcome.otherError
      = PyResult.exn "save failed" := by decide

/-- C8 amended: for all four table-saving operations, a `PermissionError`
from the save (the only exception the code catches) is non-fatal: the
operation still returns its normal result value, nothing is persisted
(the files are unchanged), and no exception reaches the caller. -/
theorem c8_amended_permission_error_tolerated :
    (∀ n files api, ∃ v,
      fetch_one_route n files api SaveOutcome.permissionError =
        PyResult.ok (v, files)
      ∧ ∃ f2, fetch_one_route n files api SaveOutcome.ok = PyResult.ok (v, f2))
    ∧ (∀ pw n u files, ∃ v,
      add_faculty_route pw n u files SaveOutcome.permissionError =
        PyResult.ok (v, files)
      ∧ ∃ f2, add_faculty_route pw n u files SaveOutcome.ok = PyResult.ok (v, f2))
    ∧ (∀ pw n files, ∃ v,
      delete_faculty_route pw n files SaveOutcome.permissionError =
        PyResult.ok (v, files)
      ∧ ∃ f2, delete_faculty_route pw n files SaveOutcome.ok = PyResult.ok (v, f2))
    ∧ (∀ files apis, ∃ v,
      update_excel_route files apis SaveOutcome.permissionError =
        PyResult.ok (v, files)
      ∧ ∃ f2, update_excel_route files apis SaveOutcome.ok = PyResult.ok (v, f2)) := by
  refine ⟨?_, ?_, ?_, ?_⟩
  · intro n files api
    unfold fetch_one_route
    rcases hf : fetch_one n files.primary api with ⟨_ | d, df⟩
    · exact ⟨none, rfl, files, rfl⟩
    · exact ⟨some d, rfl, ⟨df, files.snapshot⟩, rfl⟩
  · intro pw n u files
    unfold add_faculty_route
    split_ifs with h1 h2 h3
    · exact ⟨false, rfl, files, rfl⟩
    · exact ⟨false, rfl, files, rfl⟩
    · exact ⟨false, rfl, files, rfl⟩
    · exact ⟨true, rfl, _, rfl⟩
  · intro pw n files
    unfold delete_faculty_route
    split_ifs with h1
    · exact ⟨false, rfl, files, rfl⟩
    · rcases hd : delete_faculty n files.primary with _ | newDf
      · exact ⟨false, rfl, files, rfl⟩
      · exact ⟨true, rfl, ⟨newDf, files.snapshot⟩, rfl⟩
  · intro files apis
    exact ⟨_, rfl, _, rfl⟩

end FacultyDashboard
